import Mathlib

/-!
Verification of the analytical core of the AWS FinOps dashboard
(`streamlit_app.py`).  The dashboard loads a multi-region snapshot (a JSON
document), flattens the per-region entity lists into five region-tagged flat
collections, and derives tagging-compliance buckets, cost-risk counts, a
filtered instance view, a per-region distribution and an executive summary.

The embedding below mirrors the Python data access faithfully: every field
the code reads through `dict.get(key)` is an `Option` (with `none` for an
absent key), and every `dict.get(key, default)` becomes `Option.getD`.
A crucial point of the Python code is that the flattening loops write
`entity['region'] = region` on the very dictionary objects stored inside the
snapshot's nested lists and append those same objects to the flat lists, so
the flat collections and the nested structure share (alias) their entities.
We model the observable effect of that in-place mutation with `normalize`,
which returns the snapshot as it stands after the flattening loops have run.
-/

namespace FinOps

/-- An EC2 instance record of the snapshot document.  Fields are the keys the
dashboard reads; `none` models an absent key.  `tags` models the optional
`tags` sub-dictionary as an association list with distinct keys. -/
structure Instance where
  instance_id : Option String := none
  name : Option String := none
  state : Option String := none
  instance_type : Option String := none
  tags : Option (List (String × String)) := none
  owner : Option String := none
  cost_center : Option String := none
  environment : Option String := none
  vpc_id : Option String := none
  private_ip : Option String := none
  public_ip : Option String := none
  region : Option String := none
  deriving DecidableEq, Repr

/-- An EBS volume record (`unused_volumes.details` entries). -/
structure Volume where
  volume_id : Option String := none
  size : Option Int := none
  volume_type : Option String := none
  region : Option String := none
  deriving DecidableEq, Repr

/-- An elastic-IP record (`unused_eips.details` entries). -/
structure ElasticIP where
  allocation_id : Option String := none
  public_ip : Option String := none
  region : Option String := none
  deriving DecidableEq, Repr

/-- One entry of the snapshot's `regions` list.  `running`, `stopped` and
`total` are the pre-aggregated `instances` summary numbers
(`region_data['instances'].get('running', 0)` etc.); the five entity lists
are the nested detail lists, an absent list being `[]` (the code reads them
with `.get(..., [])`). -/
structure RegionSnapshot where
  region : Option String := none
  running : Option Int := none
  stopped : Option Int := none
  total : Option Int := none
  instances_details : List Instance := []
  untagged_instances : List Instance := []
  stopped_details : List Instance := []
  unused_volumes : List Volume := []
  unused_eips : List ElasticIP := []
  deriving DecidableEq, Repr

/-- The loaded snapshot document; only the `regions` list feeds the
analytical core (`data.get('regions', [])`). -/
structure Snapshot where
  regions : List RegionSnapshot := []
  deriving DecidableEq, Repr

/-- `region_data.get('region', 'unknown')`. -/
def regionCode (r : RegionSnapshot) : String := r.region.getD "unknown"

/-- The in-place assignment `instance['region'] = region`. -/
def setRegion (code : String) (i : Instance) : Instance := { i with region := some code }

/-- The in-place assignment `volume['region'] = region`. -/
def setVolumeRegion (code : String) (v : Volume) : Volume := { v with region := some code }

/-- The in-place assignment `eip['region'] = region`. -/
def setEipRegion (code : String) (e : ElasticIP) : ElasticIP := { e with region := some code }

/-- The accumulation pattern of the flattening loops: walk the `regions`
list in order and append `f region_data` to the accumulator. -/
def flatConcat (f : RegionSnapshot → List α) : List RegionSnapshot → List α
  | [] => []
  | r :: rs => f r ++ flatConcat f rs

/-- The `all_instances` flat collection built by the flattening loop:
every instance of every region's `instances.details`, region injected,
in region order then source-list order. -/
def allInstances (s : Snapshot) : List Instance :=
  flatConcat (fun r => r.instances_details.map (setRegion (regionCode r))) s.regions

/-- The `all_untagged` flat collection (`untagged_resources.instances`). -/
def allUntagged (s : Snapshot) : List Instance :=
  flatConcat (fun r => r.untagged_instances.map (setRegion (regionCode r))) s.regions

/-- The `all_stopped` flat collection (`stopped_instances.details`). -/
def allStopped (s : Snapshot) : List Instance :=
  flatConcat (fun r => r.stopped_details.map (setRegion (regionCode r))) s.regions

/-- The `all_unused_volumes` flat collection (`unused_volumes.details`). -/
def allUnusedVolumes (s : Snapshot) : List Volume :=
  flatConcat (fun r => r.unused_volumes.map (setVolumeRegion (regionCode r))) s.regions

/-- The `all_unused_eips` flat collection (`unused_eips.details`). -/
def allUnusedEIPs (s : Snapshot) : List ElasticIP :=
  flatConcat (fun r => r.unused_eips.map (setEipRegion (regionCode r))) s.regions

/-- The state of one region of the snapshot after the flattening loops have
run over it.  The loops mutate the shared entity dictionaries in place
(`entity['region'] = region`), so every entity inside the nested lists ends
up with its `region` key set. -/
def normRegion (r : RegionSnapshot) : RegionSnapshot :=
  { r with
    instances_details := r.instances_details.map (setRegion (regionCode r))
    untagged_instances := r.untagged_instances.map (setRegion (regionCode r))
    stopped_details := r.stopped_details.map (setRegion (regionCode r))
    unused_volumes := r.unused_volumes.map (setVolumeRegion (regionCode r))
    unused_eips := r.unused_eips.map (setEipRegion (regionCode r)) }

/-- The snapshot as observed after the Normalizer's flattening loops: the
nested entity lists hold the very objects that were mutated and appended to
the flat collections. -/
def normalize (s : Snapshot) : Snapshot :=
  { regions := s.regions.map normRegion }

/-! ### FilterEngine -/

/-- One filter dimension of the instances tab: `none` is the match-all
sentinel (the `'Todas'` / `'Todos'` selectbox entry), `some c` an
exact-equality constraint against the `dict.get` result `c` (which itself
may be `none`, the value contributed by an instance lacking the key). -/
abbrev DimSel := Option (Option String)

/-- One conditional filter step of the code:
`if selected != sentinel: filtered = [i for i in filtered if i.get(k) == selected]`. -/
def filterDim (sel : DimSel) (get : Instance → Option String) (S : List Instance) : List Instance :=
  match sel with
  | none => S
  | some c => S.filter (fun i => get i == c)

/-- The four successive filter steps of the instances tab, in source order:
region, state, environment, owner. -/
def applyFilters (S : List Instance) (selRegion selState selEnv selOwner : DimSel) : List Instance :=
  filterDim selOwner Instance.owner
    (filterDim selEnv Instance.environment
      (filterDim selState Instance.state
        (filterDim selRegion Instance.region S)))

/-- Whether one dimension's constraint is satisfied: the match-all sentinel
accepts everything, a constraint demands exact equality of the `get` result. -/
def matchesDim (sel : DimSel) (v : Option String) : Bool :=
  match sel with
  | none => true
  | some c => v == c

/-- The selectable environment options (without the leading sentinel):
`set(inst.get('environment') for inst in all_instances if inst.get('environment') != 'N/A')`.
Only the literal value `'N/A'` is excluded; an absent key contributes `none`. -/
def envOptionVals (S : List Instance) : List (Option String) :=
  ((S.map Instance.environment).filter (fun v => !(v == some "N/A"))).dedup

/-- The selectable owner options (without the leading sentinel), same shape
as `envOptionVals`. -/
def ownerOptionVals (S : List Instance) : List (Option String) :=
  ((S.map Instance.owner).filter (fun v => !(v == some "N/A"))).dedup

/-! ### TaggingComplianceAnalyzer -/

/-- `key not in tags or tags.get(key) == 'N/A'`, where `tags` is
`instance.get('tags', {})`. -/
def tagMissing (key : String) (i : Instance) : Bool :=
  match (i.tags.getD []).lookup key with
  | none => true
  | some v => v == "N/A"

/-- The four missing-tag buckets of the compliance tab (the dict keys
`'Sem Name'`, `'Sem Owner'`, `'Sem CostCenter'`, `'Sem Environment'`). -/
structure MissingTagBuckets where
  missingName : List Instance
  missingOwner : List Instance
  missingCostCenter : List Instance
  missingEnvironment : List Instance
  deriving DecidableEq, Repr

/-- The bucket computation: each instance of `all_instances` is appended to
the bucket of every mandatory tag it is missing. -/
def missingBuckets (S : List Instance) : MissingTagBuckets :=
  { missingName := S.filter (tagMissing "Name")
    missingOwner := S.filter (tagMissing "owner")
    missingCostCenter := S.filter (tagMissing "CostCenter")
    missingEnvironment := S.filter (tagMissing "Environment") }

/-- One row of the untagged-resources detail table: the informational
columns (defaulted with `'N/A'`) and the four ✅/❌ markers, which the code
derives from the flattened fields (`name`, `owner`, `cost_center`,
`environment`), not from the `tags` mapping. -/
structure UntaggedDetail where
  instance_id : String
  name : String
  region : String
  state : String
  instance_type : String
  nameTagOk : Bool
  ownerTagOk : Bool
  costCenterTagOk : Bool
  environmentTagOk : Bool
  deriving DecidableEq, Repr

/-- `'❌' if inst.get(field) == 'N/A' else '✅'`, per row of the detail
table (`True` renders as ✅). -/
def untaggedDetail (i : Instance) : UntaggedDetail :=
  { instance_id := i.instance_id.getD "N/A"
    name := i.name.getD "N/A"
    region := i.region.getD "N/A"
    state := i.state.getD "N/A"
    instance_type := i.instance_type.getD "N/A"
    nameTagOk := !(i.name == some "N/A")
    ownerTagOk := !(i.owner == some "N/A")
    costCenterTagOk := !(i.cost_center == some "N/A")
    environmentTagOk := !(i.environment == some "N/A") }

/-- What the tagging-compliance tab renders: either the overall success
state, or the bucket counts together with the untagged detail rows. -/
inductive TagView where
  | compliant : TagView
  | nonCompliant : MissingTagBuckets → List UntaggedDetail → TagView
  deriving DecidableEq, Repr

/-- The `if all_untagged:` gate of the compliance tab: the bucket analysis
and the detail table exist only when `all_untagged` is non-empty; otherwise
the tab shows the overall compliant state and nothing else. -/
def taggingView (allInst allUnt : List Instance) : TagView :=
  match allUnt with
  | [] => TagView.compliant
  | _ :: _ => TagView.nonCompliant (missingBuckets allInst) (allUnt.map untaggedDetail)

/-! ### CostRiskDetector -/

/-- `stopped_instances = len(all_stopped)`. -/
def stoppedCount (s : Snapshot) : Nat := (allStopped s).length

/-- `unused_volumes_count = len(all_unused_volumes)`. -/
def unusedVolumeCount (s : Snapshot) : Nat := (allUnusedVolumes s).length

/-- `total_size = sum(v.get('size', 0) for v in all_unused_volumes)`. -/
def unusedVolumeTotalGB (s : Snapshot) : Int :=
  ((allUnusedVolumes s).map (fun v => v.size.getD 0)).sum

/-- `unused_eips_count = len(all_unused_eips)`. -/
def unusedEIPCount (s : Snapshot) : Nat := (allUnusedEIPs s).length

/-- `total_cost_risks = stopped_instances + unused_volumes_count + unused_eips_count`. -/
def totalCostRisks (s : Snapshot) : Nat :=
  stoppedCount s + unusedVolumeCount s + unusedEIPCount s

/-! ### RegionAggregator -/

/-- One region's row of the per-region distribution, read off the
pre-aggregated `instances` summary with `.get(..., 0)` defaults. -/
structure RegStats where
  running : Int
  stopped : Int
  total : Int
  deriving DecidableEq, Repr

/-- `{'running': instances.get('running', 0), 'stopped': ..., 'total': ...}`. -/
def statsOf (r : RegionSnapshot) : RegStats :=
  { running := r.running.getD 0, stopped := r.stopped.getD 0, total := r.total.getD 0 }

/-- Python dict assignment `region_stats[region] = stats`: an existing key
keeps its position and gets the new value, a new key is appended. -/
def dictInsert (k : String) (v : RegStats) : List (String × RegStats) → List (String × RegStats)
  | [] => [(k, v)]
  | (k', v') :: rest => if k' = k then (k, v) :: rest else (k', v') :: dictInsert k v rest

/-- The `region_stats` dict in its `.items()` order (insertion order). -/
def regionStats (s : Snapshot) : List (String × RegStats) :=
  s.regions.foldl (fun acc r => dictInsert (regionCode r) (statsOf r) acc) []

/-- Insert a row into a descending-by-`total` list, after every row with a
strictly larger total and before the first row whose total is ≤ its own
(so an earlier-inserted row with an equal total stays in front: stable). -/
def insertByTotal (x : String × RegStats) : List (String × RegStats) → List (String × RegStats)
  | [] => [x]
  | y :: ys => if x.2.total < y.2.total then y :: insertByTotal x ys else x :: y :: ys

/-- Model of `df_regions.sort_values('Total', ascending=False)` as an
insertion sort on the `total` column.  The pandas default sort kind is not
stable in general, so only the descending order and the permutation of the
rows are properties of the program; a model must still pick some concrete
order for ties, and this one keeps the input order, which is what numpy
produces on small inputs such as the two-row snapshot traced below. -/
def sortDescTotal : List (String × RegStats) → List (String × RegStats)
  | [] => []
  | x :: xs => insertByTotal x (sortDescTotal xs)

/-- The per-region distribution as displayed: the `region_stats` rows sorted
descending by `total`. -/
def regionDistribution (s : Snapshot) : List (String × RegStats) :=
  sortDescTotal (regionStats s)

/-- The display order row `a` before row `b` is claimed to satisfy:
strictly larger total first, ties in ascending region code. -/
abbrev claimedRegionOrder (a b : String × RegStats) : Prop :=
  b.2.total < a.2.total ∨ (a.2.total = b.2.total ∧ a.1 < b.1)

/-- The order actually guaranteed between a displayed row `a` and any later
row `b`: totals never increase. -/
abbrev descByTotal (a b : String × RegStats) : Prop :=
  b.2.total ≤ a.2.total

/-! ### SummaryReporter -/

/-- `total_instances = len(all_instances)`. -/
def totalInstances (s : Snapshot) : Nat := (allInstances s).length

/-- `running_instances = len([i for i in all_instances if i.get('state') == 'running'])`. -/
def runningInstances (s : Snapshot) : Nat :=
  ((allInstances s).filter (fun i => i.state == some "running")).length

/-- `untagged_count = len(all_untagged)`. -/
def untaggedCount (s : Snapshot) : Nat := (allUntagged s).length

/-- The fixed-key executive summary of the reports tab. -/
structure ExecSummary where
  totalInstancesKey : Nat
  runningInstancesKey : Nat
  stoppedInstancesKey : Nat
  untaggedKey : Nat
  unusedVolumesKey : Nat
  unusedEIPsKey : Nat
  totalRegionsKey : Nat
  deriving DecidableEq, Repr

/-- The `summary` dict of the reports tab, key by key. -/
def execSummary (s : Snapshot) : ExecSummary :=
  { totalInstancesKey := totalInstances s
    runningInstancesKey := runningInstances s
    stoppedInstancesKey := stoppedCount s
    untaggedKey := untaggedCount s
    unusedVolumesKey := unusedVolumeCount s
    unusedEIPsKey := unusedEIPCount s
    totalRegionsKey := s.regions.length }

/-- Sum of the nested `instances.details` list lengths over the regions. -/
def sumDetailLengths : List RegionSnapshot → Nat
  | [] => 0
  | r :: rs => r.instances_details.length + sumDetailLengths rs

/-- Sum of the pre-aggregated per-region `total` summary fields. -/
def sumTotalsField : List RegionSnapshot → Int
  | [] => 0
  | r :: rs => r.total.getD 0 + sumTotalsField rs

/-! ### Concrete data used to exercise the definitions -/

/-- An instance record with every key absent. -/
def blankInstance : Instance := {}

/-- The instance of the spec's tagging scenario: `tags = {Name: "x", owner: "N/A"}`. -/
def scenarioInst : Instance := { tags := some [("Name", "x"), ("owner", "N/A")] }

/-- A one-region snapshot whose single nested instance has no `region` key. -/
def aliasSnap : Snapshot :=
  { regions := [{ region := some "us-east-1", instances_details := [blankInstance] }] }

/-- An instance whose `environment` key is absent. -/
def iNoEnv : Instance := { instance_id := some "i-1" }

/-- The spec's worked scenario: one region reporting summary
(running 3, stopped 1, total 4), one actual instance detail, and two unused
volumes of 10 and 20 GB. -/
def demoSnap : Snapshot :=
  { regions :=
      [{ region := some "us-east-1", running := some 3, stopped := some 1, total := some 4,
         instances_details := [blankInstance],
         unused_volumes :=
           [{ volume_id := some "vol-a", size := some 10, volume_type := some "gp2" },
            { volume_id := some "vol-b", size := some 20, volume_type := some "gp2" }] }] }

/-- Two regions, codes `b` then `a`, with equal `total` summary values. -/
def tieSnap : Snapshot :=
  { regions :=
      [{ region := some "b", total := some 5 },
       { region := some "a", total := some 5 }] }

instance : DecidableRel claimedRegionOrder := fun _ _ => inferInstance

/-! ### Helper lemmas -/

theorem filter_true_id (l : List α) : l.filter (fun _ => true) = l := by
  induction l with
  | nil => rfl
  | cons a l ih => simp [List.filter_cons, ih]

theorem filterDim_eq (sel : DimSel) (get : Instance → Option String) (S : List Instance) :
    filterDim sel get S = S.filter (fun i => matchesDim sel (get i)) := by
  cases sel with
  | none => simp [filterDim, matchesDim, filter_true_id]
  | some c => rfl

theorem applyFilters_eq (S : List Instance) (r st e o : DimSel) :
    applyFilters S r st e o =
      S.filter (fun i =>
        matchesDim r i.region &&
          (matchesDim st i.state && (matchesDim e i.environment && matchesDim o i.owner))) := by
  simp only [applyFilters, filterDim_eq, List.filter_filter]
  exact List.filter_congr (fun x _ => by
    cases matchesDim r x.region <;> cases matchesDim st x.state <;>
      cases matchesDim e x.environment <;> cases matchesDim o x.owner <;> rfl)

theorem sum_map_foldr (f : α → Int) (l : List α) :
    (l.map f).sum = l.foldr (fun a acc => f a + acc) 0 := by
  induction l <;> simp_all

theorem flatConcat_eq_flatten (f : RegionSnapshot → List α) (rs : List RegionSnapshot) :
    flatConcat f rs = (rs.map f).flatten := by
  induction rs <;> simp_all [flatConcat]

theorem mem_flatConcat {f : RegionSnapshot → List α} {rs : List RegionSnapshot} {a : α} :
    a ∈ flatConcat f rs ↔ ∃ r ∈ rs, a ∈ f r := by
  induction rs <;> simp_all [flatConcat]

theorem flatConcat_map (g : RegionSnapshot → List α) (h : RegionSnapshot → RegionSnapshot)
    (rs : List RegionSnapshot) :
    flatConcat g (rs.map h) = flatConcat (fun r => g (h r)) rs := by
  induction rs <;> simp_all [flatConcat]

theorem length_flatInstances (rs : List RegionSnapshot) :
    (flatConcat (fun r => r.instances_details.map (setRegion (regionCode r))) rs).length =
      sumDetailLengths rs := by
  induction rs with
  | nil => rfl
  | cons r rs ih => simp [flatConcat, sumDetailLengths, ih]

theorem tagMissing_iff (k : String) (i : Instance) :
    tagMissing k i = true ↔
      ((i.tags.getD []).lookup k = none ∨ (i.tags.getD []).lookup k = some "N/A") := by
  unfold tagMissing
  cases h : (i.tags.getD []).lookup k with
  | none => simp
  | some v => simp [beq_iff_eq]

theorem mem_insertByTotal (x y : String × RegStats) :
    ∀ (l : List (String × RegStats)), y ∈ insertByTotal x l → y = x ∨ y ∈ l
  | [] => by
    intro h
    simp [insertByTotal] at h
    exact Or.inl h
  | z :: l => by
    intro h
    simp only [insertByTotal] at h
    split at h
    · rcases List.mem_cons.mp h with h1 | h1
      · exact Or.inr (h1 ▸ List.mem_cons_self z l)
      · rcases mem_insertByTotal x y l h1 with h2 | h2
        · exact Or.inl h2
        · exact Or.inr (List.mem_cons_of_mem z h2)
    · rcases List.mem_cons.mp h with h1 | h1
      · exact Or.inl h1
      · exact Or.inr h1

theorem pairwise_insertByTotal (x : String × RegStats) :
    ∀ (l : List (String × RegStats)),
      l.Pairwise descByTotal → (insertByTotal x l).Pairwise descByTotal
  | [] => fun _ => by simp [insertByTotal]
  | y :: l => fun h => by
    obtain ⟨hy, hl⟩ := List.pairwise_cons.mp h
    simp only [insertByTotal]
    split
    · rename_i hlt
      refine List.pairwise_cons.mpr ⟨?_, pairwise_insertByTotal x l hl⟩
      intro z hz
      rcases mem_insertByTotal x z l hz with rfl | hz2
      · exact le_of_lt hlt
      · exact hy z hz2
    · rename_i hge
      refine List.pairwise_cons.mpr ⟨?_, List.pairwise_cons.mpr ⟨hy, hl⟩⟩
      intro z hz
      rcases List.mem_cons.mp hz with rfl | hz2
      · exact le_of_not_lt hge
      · exact le_trans (hy z hz2) (le_of_not_lt hge)

theorem pairwise_sortDescTotal :
    ∀ (l : List (String × RegStats)), (sortDescTotal l).Pairwise descByTotal
  | [] => List.Pairwise.nil
  | x :: l => pairwise_insertByTotal x (sortDescTotal l) (pairwise_sortDescTotal l)

theorem perm_insertByTotal (x : String × RegStats) :
    ∀ (l : List (String × RegStats)), (insertByTotal x l).Perm (x :: l)
  | [] => List.Perm.refl _
  | y :: l => by
    simp only [insertByTotal]
    split
    · exact List.Perm.trans (List.Perm.cons y (perm_insertByTotal x l)) (List.Perm.swap x y l)
    · exact List.Perm.refl _

theorem perm_sortDescTotal : ∀ (l : List (String × RegStats)), (sortDescTotal l).Perm l
  | [] => List.Perm.refl _
  | x :: l =>
    List.Perm.trans (perm_insertByTotal x (sortDescTotal l))
      (List.Perm.cons x (perm_sortDescTotal l))

/-! ### The claims -/

/-- C1 (counterexample): the Normalizer does not have copy semantics.  The
flattening loop executes `instance['region'] = region` on the dictionary
object held inside the snapshot's nested `instances.details` list, so after
normalization that nested entity has changed: on a snapshot whose nested
instance lacks the `region` key, the post-normalization snapshot differs
from the input. -/
theorem normalizer_mutates_nested_cex : normalize aliasSnap ≠ aliasSnap := by decide

/-- C1 (amended): the flat collections and the snapshot's nested structure
share their entities.  After the Normalizer runs, concatenating the nested
per-region lists of the mutated snapshot yields exactly the five flat
collections: the nested entities are the flattened entities (region
back-reference set), not unchanged copies. -/
theorem normalizer_shares_entities (s : Snapshot) :
    flatConcat (fun r => r.instances_details) (normalize s).regions = allInstances s
    ∧ flatConcat (fun r => r.untagged_instances) (normalize s).regions = allUntagged s
    ∧ flatConcat (fun r => r.stopped_details) (normalize s).regions = allStopped s
    ∧ flatConcat (fun r => r.unused_volumes) (normalize s).regions = allUnusedVolumes s
    ∧ flatConcat (fun r => r.unused_eips) (normalize s).regions = allUnusedEIPs s := by
  refine ⟨?_, ?_, ?_, ?_, ?_⟩ <;>
    · simp only [normalize]
      rw [flatConcat_map]
      rfl

/-- C2 (counterexample): an instance whose `environment` key is absent does
contribute a selectable environment option.  The option comprehension
excludes only the literal value `'N/A'`; an absent key yields `None`, which
passes the `!= 'N/A'` test and lands in the option set. -/
theorem env_option_absent_key_cex :
    Instance.environment iNoEnv = none ∧ (none : Option String) ∈ envOptionVals [iNoEnv] := by
  exact ⟨rfl, by decide⟩

/-- C2 (amended): the selectable environment and owner option sets are
exactly the distinct `dict.get` results over the unfiltered `allInstances`,
excluding only the literal `'N/A'` value — an instance with an absent key
contributes the absent-value (`None`) as an option rather than none at all —
and with every dimension at the match-all sentinel the filter returns the
whole collection, so such an instance is still returned. -/
theorem filter_option_sets (S : List Instance) (v : Option String) :
    (v ∈ envOptionVals S ↔ v ∈ S.map Instance.environment ∧ v ≠ some "N/A")
    ∧ (v ∈ ownerOptionVals S ↔ v ∈ S.map Instance.owner ∧ v ≠ some "N/A")
    ∧ applyFilters S none none none none = S := by
  refine ⟨?_, ?_, rfl⟩ <;> simp [envOptionVals, ownerOptionVals, List.mem_filter]

/-- C3: flattening is exact.  Each of the five flat collections is the
concatenation, in the snapshot's region order and source-list order within a
region, of the nested entity lists with the region back-reference set to the
enclosing region's code; consequently nothing is dropped or duplicated, and
every flattened instance carries the code of the region it came from. -/
theorem flattening_exact (s : Snapshot) :
    allInstances s =
      (s.regions.map (fun r => r.instances_details.map (setRegion (regionCode r)))).flatten
    ∧ allUntagged s =
      (s.regions.map (fun r => r.untagged_instances.map (setRegion (regionCode r)))).flatten
    ∧ allStopped s =
      (s.regions.map (fun r => r.stopped_details.map (setRegion (regionCode r)))).flatten
    ∧ allUnusedVolumes s =
      (s.regions.map (fun r => r.unused_volumes.map (setVolumeRegion (regionCode r)))).flatten
    ∧ allUnusedEIPs s =
      (s.regions.map (fun r => r.unused_eips.map (setEipRegion (regionCode r)))).flatten
    ∧ (∀ j, j ∈ allInstances s →
        ∃ r, r ∈ s.regions ∧ ∃ i, i ∈ r.instances_details ∧
          j = setRegion (regionCode r) i ∧ j.region = some (regionCode r)) := by
  refine ⟨flatConcat_eq_flatten _ _, flatConcat_eq_flatten _ _, flatConcat_eq_flatten _ _,
    flatConcat_eq_flatten _ _, flatConcat_eq_flatten _ _, ?_⟩
  intro j hj
  obtain ⟨r, hr, hj2⟩ := mem_flatConcat.mp hj
  obtain ⟨i, hi, rfl⟩ := List.mem_map.mp hj2
  exact ⟨r, hr, i, hi, rfl, rfl⟩

/-- C4: the filter output is the order-preserving sublist of the input
containing exactly the instances that satisfy every active exact-equality
constraint, a dimension at the match-all sentinel imposing no constraint
(conjunctive semantics). -/
theorem filter_engine_characterization (S : List Instance) (r st e o : DimSel) :
    applyFilters S r st e o =
      S.filter (fun i =>
        matchesDim r i.region &&
          (matchesDim st i.state && (matchesDim e i.environment && matchesDim o i.owner)))
    ∧ List.Sublist (applyFilters S r st e o) S := by
  have h := applyFilters_eq S r st e o
  exact ⟨h, h ▸ List.filter_sublist S⟩

/-- C5: filtering is idempotent — applying the same four-dimension
constraint set twice yields the same result as applying it once. -/
theorem filter_engine_idempotent (S : List Instance) (r st e o : DimSel) :
    applyFilters (applyFilters S r st e o) r st e o = applyFilters S r st e o := by
  simp [applyFilters_eq, Bool.and_self]

/-- C6: an instance lands in a mandatory tag's missing bucket iff the key is
absent from its `tags` mapping or mapped to the literal `'N/A'`; the spec's
scenario instance with tags `{Name: "x", owner: "N/A"}` is counted exactly
once in the missing-owner bucket and not at all in the missing-Name bucket. -/
theorem tagging_bucket_membership (S : List Instance) (i : Instance) :
    (i ∈ (missingBuckets S).missingName ↔
      i ∈ S ∧ ((i.tags.getD []).lookup "Name" = none ∨ (i.tags.getD []).lookup "Name" = some "N/A"))
    ∧ (i ∈ (missingBuckets S).missingOwner ↔
      i ∈ S ∧ ((i.tags.getD []).lookup "owner" = none ∨ (i.tags.getD []).lookup "owner" = some "N/A"))
    ∧ (i ∈ (missingBuckets S).missingCostCenter ↔
      i ∈ S ∧ ((i.tags.getD []).lookup "CostCenter" = none ∨ (i.tags.getD []).lookup "CostCenter" = some "N/A"))
    ∧ (i ∈ (missingBuckets S).missingEnvironment ↔
      i ∈ S ∧ ((i.tags.getD []).lookup "Environment" = none ∨ (i.tags.getD []).lookup "Environment" = some "N/A"))
    ∧ List.count scenarioInst ((missingBuckets [scenarioInst]).missingOwner) = 1
    ∧ scenarioInst ∉ (missingBuckets [scenarioInst]).missingName := by
  refine ⟨?_, ?_, ?_, ?_, by decide, by decide⟩ <;>
    simp [missingBuckets, List.mem_filter, tagMissing_iff]

/-- C7: the cost-risk numbers are the sizes of the flat collections, the
volume GB total is the sum of the `size` fields with an absent size
contributing 0, and the total risk score is their plain sum; on the spec's
scenario (volumes of 10 and 20 GB) the detector reports count 2 and 30 GB. -/
theorem cost_risk_arithmetic (s : Snapshot) :
    stoppedCount s = (allStopped s).length
    ∧ unusedVolumeCount s = (allUnusedVolumes s).length
    ∧ unusedVolumeTotalGB s = (allUnusedVolumes s).foldr (fun v acc => v.size.getD 0 + acc) 0
    ∧ unusedEIPCount s = (allUnusedEIPs s).length
    ∧ totalCostRisks s = stoppedCount s + unusedVolumeCount s + unusedEIPCount s
    ∧ unusedVolumeCount demoSnap = 2
    ∧ unusedVolumeTotalGB demoSnap = 30 := by
  exact ⟨rfl, rfl, sum_map_foldr _ _, rfl, rfl, by decide, by decide⟩

/-- C8: the executive summary recomputes everything from the flat
collections: its total-instances value is the number of flattened instance
entries (the sum of the per-region detail list lengths), the remaining keys
are the running count, flat collection sizes and the region count, and on
the spec's scenario that total (1) differs from the sum of the per-region
`total` summary fields (4). -/
theorem summary_recomputed (s : Snapshot) :
    (execSummary s).totalInstancesKey = sumDetailLengths s.regions
    ∧ (execSummary s).runningInstancesKey =
      ((allInstances s).filter (fun i => i.state == some "running")).length
    ∧ (execSummary s).stoppedInstancesKey = (allStopped s).length
    ∧ (execSummary s).untaggedKey = (allUntagged s).length
    ∧ (execSummary s).unusedVolumesKey = (allUnusedVolumes s).length
    ∧ (execSummary s).unusedEIPsKey = (allUnusedEIPs s).length
    ∧ (execSummary s).totalRegionsKey = s.regions.length
    ∧ ((execSummary demoSnap).totalInstancesKey : Int) ≠ sumTotalsField demoSnap.regions := by
  exact ⟨length_flatInstances s.regions, rfl, rfl, rfl, rfl, rfl, rfl, by decide⟩

/-- C9 (counterexample): the per-region distribution does not break ties in
ascending region code.  On a snapshot whose regions `b` then `a` report
equal totals, the displayed order is `b`, `a` — the sort has no code-based
tie-break — refuting the claimed ordering. -/
theorem region_tiebreak_cex :
    ¬ (regionDistribution tieSnap).Pairwise claimedRegionOrder := by
  intro h
  have hval : regionDistribution tieSnap =
      [("b", { running := 0, stopped := 0, total := 5 }),
       ("a", { running := 0, stopped := 0, total := 5 })] := by decide
  rw [hval] at h
  obtain ⟨hb, -⟩ := List.pairwise_cons.mp h
  have h2 := hb ("a", { running := 0, stopped := 0, total := 5 }) (List.mem_cons_self _ _)
  rcases h2 with h3 | ⟨-, h4⟩
  · simp at h3
  · rw [String.lt_iff_toList_lt] at h4
    exact absurd h4 (by decide)

/-- C9 (amended): the per-region distribution is sorted in descending order
of the reported `total` and is a permutation of the accumulated per-region
stats rows; no region-code tie-break is applied, so the relative order of
equal-total regions is left unspecified (the underlying sort is not stable
in general). -/
theorem region_distribution_sorted (s : Snapshot) :
    (regionDistribution s).Pairwise descByTotal
    ∧ (regionDistribution s).Perm (regionStats s) :=
  ⟨pairwise_sortDescTotal (regionStats s), perm_sortDescTotal (regionStats s)⟩

/-- C10: the missing-tag buckets and the untagged detail rows are produced
only when `allUntagged` is non-empty; with an empty `allUntagged` the
compliance tab reports the overall compliant state and emits no bucket
counts at all — even for an `allInstances` population (such as a single
blank instance) whose instances miss every mandatory tag. -/
theorem tagging_gate (allInst : List Instance) :
    taggingView allInst [] = TagView.compliant
    ∧ (∀ (u : Instance) (us : List Instance),
        taggingView allInst (u :: us) =
          TagView.nonCompliant (missingBuckets allInst) ((u :: us).map untaggedDetail))
    ∧ taggingView [blankInstance] [] = TagView.compliant
    ∧ tagMissing "Name" blankInstance = true := by
  exact ⟨rfl, fun u us => rfl, rfl, by decide⟩

end FinOps
